import Mathlib

/-!
Shallow embedding of the write-side engine of libarchive
(`src/libarchive/archive_write.c`): status codes, the write-handle state
machine (`_archive_write_header`, `_archive_write_finish_entry`,
`_archive_write_close`, `archive_write_open`), the filter-chain write path
(`__archive_write_filter`), the client sink adapter write loop
(`archive_write_client_write`), and the option-dispatch combinators
(`archive_write_set_format_options`, `archive_write_set_compressor_options`,
`archive_write_set_options`).

Format-backend and filter hooks are function pointers in the C source; here
they are modelled by their result values, carried in `Backend` and `Filter`
records, and each operation additionally returns the ordered list of hook
names it invoked, so that claims about "hook X is (not) invoked" are
expressible.
-/

namespace ArchiveWrite

/-- Status code `ARCHIVE_OK` (0): operation succeeded. -/
def ARCHIVE_OK : Int := 0

/-- Status code `ARCHIVE_RETRY` (-10): retry might succeed. -/
def ARCHIVE_RETRY : Int := -10

/-- Status code `ARCHIVE_WARN` (-20): partial success. -/
def ARCHIVE_WARN : Int := -20

/-- Status code `ARCHIVE_FAILED` (-25): current operation cannot complete. -/
def ARCHIVE_FAILED : Int := -25

/-- Status code `ARCHIVE_FATAL` (-30): no more operations are possible. -/
def ARCHIVE_FATAL : Int := -30

/-- Modelled from the spec: the handle-state constants live in
`archive_private.h`, which is not among the provided sources; the spec
(§3, §4.1) says the five states are bitmask-composable for the purpose of
"allowed in states X|Y" checks, so they are modelled as the distinct
one-bit values used by libarchive. `ARCHIVE_STATE_NEW`. -/
def ARCHIVE_STATE_NEW : Nat := 1

/-- Modelled from the spec: bitmask state constant `ARCHIVE_STATE_HEADER`
(see `ARCHIVE_STATE_NEW`). -/
def ARCHIVE_STATE_HEADER : Nat := 2

/-- Modelled from the spec: bitmask state constant `ARCHIVE_STATE_DATA`
(see `ARCHIVE_STATE_NEW`). -/
def ARCHIVE_STATE_DATA : Nat := 4

/-- Modelled from the spec: bitmask state constant `ARCHIVE_STATE_CLOSED`
(see `ARCHIVE_STATE_NEW`). -/
def ARCHIVE_STATE_CLOSED : Nat := 32

/-- Modelled from the spec: bitmask state constant `ARCHIVE_STATE_FATAL`
(see `ARCHIVE_STATE_NEW`). -/
def ARCHIVE_STATE_FATAL : Nat := 32768

/-- One node of the filter chain (`struct archive_write_filter`).  The
behavioural slots (`open`, `write`, `close`, …) are function pointers in C;
they are modelled by whether the slot is set and by the status the hook
returns when invoked. -/
structure Filter where
  code : Int := 0
  bytes_written : Int := 0
  has_open : Bool := false
  open_ret : Int := ARCHIVE_OK
  write_ret : Int := ARCHIVE_OK
  isClientSink : Bool := false
deriving Repr, DecidableEq

/-- The format backend's bound hook slots (`format_init`,
`format_write_header`, `format_finish_entry`, `format_finish` on
`struct archive_write`), modelled by presence flags and result values. -/
structure Backend where
  has_init : Bool := false
  init_ret : Int := ARCHIVE_OK
  write_header_ret : Int := ARCHIVE_OK
  finish_entry_ret : Int := ARCHIVE_OK
  has_finish : Bool := false
  finish_ret : Int := ARCHIVE_OK
deriving Repr, DecidableEq

/-- The entry metadata consulted by `_archive_write_header`
(`archive_entry_dev`, `archive_entry_ino64`). -/
structure Entry where
  dev : Nat := 0
  ino64 : Nat := 0
deriving Repr, DecidableEq

/-- The mutable write-handle fields of `struct archive_write` that the
embedded operations read or write: the archive state word, the configured
skip identity, and the filter chain (`filter_first`/`filter_last` linked
list, modelled as a Lean list). -/
structure Handle where
  state : Nat := ARCHIVE_STATE_NEW
  skip_file_dev : Nat := 0
  skip_file_ino : Nat := 0
  filters : List Filter := []
deriving Repr, DecidableEq

/-- Result of a handle operation: the updated handle, the returned status,
and the ordered names of the backend/filter hooks the operation invoked. -/
structure WResult where
  a : Handle
  ret : Int
  calls : List String
deriving Repr, DecidableEq

/-- `archive_write_set_skip_file`: store the (dev, ino) pair to be
rejected; returns `ARCHIVE_OK`. -/
def archive_write_set_skip_file (a : Handle) (d i : Nat) : Handle × Int :=
  ({ a with skip_file_dev := d, skip_file_ino := i }, ARCHIVE_OK)

/-- `_archive_write_finish_entry`: if the state word has the DATA bit,
invoke the backend's finish-entry hook; in all cases set the state to
HEADER and return the hook's status (or `ARCHIVE_OK` when it was not
invoked).  The `__archive_check_magic` legality check
(state ∈ HEADER|DATA) is a macro from `archive_private.h`; it is carried
as a hypothesis of the theorems instead. -/
def _archive_write_finish_entry (b : Backend) (a : Handle) : WResult :=
  if a.state &&& ARCHIVE_STATE_DATA ≠ 0 then
    { a := { a with state := ARCHIVE_STATE_HEADER },
      ret := b.finish_entry_ret, calls := ["format_finish_entry"] }
  else
    { a := { a with state := ARCHIVE_STATE_HEADER },
      ret := ARCHIVE_OK, calls := [] }

/-- Whether the skip-identity guard of `_archive_write_header` fires on
entry `e`: `skip_file_dev != 0 && dev(e) == skip_file_dev &&
skip_file_ino != 0 && ino64(e) == skip_file_ino`. -/
def skipGuard (a : Handle) (e : Entry) : Bool :=
  a.skip_file_dev ≠ 0 && e.dev == a.skip_file_dev &&
    a.skip_file_ino ≠ 0 && e.ino64 == a.skip_file_ino

/-- `_archive_write_header`: implicitly finish the previous entry; a FATAL
result forces state FATAL and is propagated; any other result below OK
except WARN is returned immediately; then the skip-identity guard may
reject the entry with `ARCHIVE_FAILED`; otherwise the backend's
write-header hook runs, FATAL from it forces state FATAL, and otherwise
the lower (more severe) of the two statuses is returned with state set to
DATA. -/
def _archive_write_header (b : Backend) (a : Handle) (e : Entry) : WResult :=
  let fe := _archive_write_finish_entry b a
  let a1 := fe.a
  let ret := fe.ret
  if ret = ARCHIVE_FATAL then
    { a := { a1 with state := ARCHIVE_STATE_FATAL },
      ret := ARCHIVE_FATAL, calls := fe.calls }
  else if ret < ARCHIVE_OK ∧ ret ≠ ARCHIVE_WARN then
    { a := a1, ret := ret, calls := fe.calls }
  else if skipGuard a1 e then
    { a := a1, ret := ARCHIVE_FAILED, calls := fe.calls }
  else
    let r2 := b.write_header_ret
    let calls := fe.calls ++ ["format_write_header"]
    if r2 = ARCHIVE_FATAL then
      { a := { a1 with state := ARCHIVE_STATE_FATAL },
        ret := ARCHIVE_FATAL, calls := calls }
    else
      { a := { a1 with state := ARCHIVE_STATE_DATA },
        ret := if r2 < ret then r2 else ret, calls := calls }

/-- `__archive_write_open_filter`: a filter with no open hook opens
trivially with `ARCHIVE_OK`; otherwise the hook's status is returned. -/
def __archive_write_open_filter (f : Filter) : Int :=
  if f.has_open then f.open_ret else ARCHIVE_OK

/-- `__archive_write_close_filter` applied to the chain head, modelled by
the status the head's close hook returns (`ARCHIVE_OK` when the hook slot
is unset); the head hook is responsible for propagating the close
downstream.  Carried as an explicit parameter of `_archive_write_close`. -/
def filterCloseResult (hasClose : Bool) (closeRet : Int) : Int :=
  if hasClose then closeRet else ARCHIVE_OK

/-- `_archive_write_close`: FATAL handles return `ARCHIVE_FATAL` at once;
NEW or CLOSED handles return `ARCHIVE_OK` at once; otherwise the pending
entry is finished when the DATA bit is set, the backend's finish hook runs
when bound, the head filter's close hook runs, the three statuses are
merged by lower-wins, and the state becomes CLOSED. -/
def _archive_write_close (b : Backend) (hasClose : Bool) (closeRet : Int)
    (a : Handle) : WResult :=
  if a.state &&& ARCHIVE_STATE_FATAL ≠ 0 then
    { a := a, ret := ARCHIVE_FATAL, calls := [] }
  else if a.state &&& (ARCHIVE_STATE_NEW ||| ARCHIVE_STATE_CLOSED) ≠ 0 then
    { a := a, ret := ARCHIVE_OK, calls := [] }
  else
    let r0 := if a.state &&& ARCHIVE_STATE_DATA ≠ 0 then b.finish_entry_ret
      else ARCHIVE_OK
    let c0 := if a.state &&& ARCHIVE_STATE_DATA ≠ 0 then
      ["format_finish_entry"] else []
    let r1 := if b.has_finish then
      (if b.finish_ret < r0 then b.finish_ret else r0) else r0
    let c1 := if b.has_finish then c0 ++ ["format_finish"] else c0
    let rc := filterCloseResult hasClose closeRet
    let r2 := if rc < r1 then rc else r1
    let c2 := if hasClose then c1 ++ ["filter_close"] else c1
    { a := { a with state := ARCHIVE_STATE_CLOSED }, ret := r2, calls := c2 }

/-- Modelled from the spec: `archive_write_set_compression_none` lives in a
separate source file that is not among the provided sources; per spec §4.2
("if no filters were configured, append a pass-through filter so the chain
is non-empty") it allocates one filter node, with open/write/close hooks
bound (it performs the block-size buffering), via
`__archive_write_allocate_filter`, which appends the node at the tail of
the chain. -/
def archive_write_set_compression_none (noneOpenRet : Int) (a : Handle) :
    Handle :=
  { a with filters := a.filters ++
      [{ has_open := true, open_ret := noneOpenRet }] }

/-- The client sink adapter node appended by `archive_write_open`: its
open/write/close hooks are `archive_write_client_open`,
`archive_write_client_write`, `archive_write_client_close`;
`clientOpenRet` is the status `archive_write_client_open` would return. -/
def clientSinkFilter (clientOpenRet : Int) : Filter :=
  { has_open := true, open_ret := clientOpenRet, isClientSink := true }

/-- Chain-building prefix of `archive_write_open`: when no filter was
configured, append the pass-through (none) filter; then append the client
sink adapter filter bound to the caller's callbacks.  `noneOpenRet` is the
status the pass-through filter's open hook would return. -/
def openBuildChain (noneOpenRet clientOpenRet : Int) (a : Handle) : Handle :=
  let a1 := if a.filters = [] then archive_write_set_compression_none noneOpenRet a
    else a
  { a1 with filters := a1.filters ++ [clientSinkFilter clientOpenRet] }

/-- The status `__archive_write_open_filter(a->filter_first)` produces in
`archive_write_open`: the open-hook status of the head of the chain built
by `openBuildChain`. -/
def headOpenResult (noneOpenRet clientOpenRet : Int) (a : Handle) : Int :=
  match (openBuildChain noneOpenRet clientOpenRet a).filters.head? with
  | some f => __archive_write_open_filter f
  | none => ARCHIVE_OK

/-- Rest of `archive_write_open`: open the chain head, set the state to
HEADER, and when the backend has an init hook and the head open returned
`ARCHIVE_OK`, run init and return its status, else return the head-open
status. -/
def archive_write_open (b : Backend) (noneOpenRet clientOpenRet : Int)
    (a : Handle) : WResult :=
  let a2 := openBuildChain noneOpenRet clientOpenRet a
  let ret := headOpenResult noneOpenRet clientOpenRet a
  let a3 := { a2 with state := ARCHIVE_STATE_HEADER }
  if b.has_init ∧ ret = ARCHIVE_OK then
    { a := a3, ret := b.init_ret, calls := ["format_init"] }
  else
    { a := a3, ret := ret, calls := [] }

/-- `__archive_write_filter`: invoke the node's write hook on the buffer
and then add the requested length to the node's `bytes_written`, whatever
status the hook returned. -/
def __archive_write_filter (f : Filter) (length : Nat) : Filter × Int :=
  let r := f.write_ret
  ({ f with bytes_written := f.bytes_written + (length : Int) }, r)

/-- Truncating conversion from C `ssize_t` to C `int`
(two's-complement wraparound to 32 bits), as performed by
`return ((int)written)` in `archive_write_client_write`. -/
def intCast32 (x : Int) : Int :=
  (x + 2 ^ 31) % 2 ^ 32 - 2 ^ 31

/-- `archive_write_client_write`: loop invoking the caller's writer
callback on the remaining buffer.  `writer k r` is the signed byte count
the callback reports on its k-th invocation when `r` bytes remain; a
negative report is returned (cast to `int`) immediately, a zero report
with bytes remaining yields `ARCHIVE_FATAL`, and a positive report
advances the buffer with `size_t` (mod 2^64) arithmetic.  The C loop has
no fuel; the extra fuel argument makes the function total, with `none`
standing for a run that exceeds the fuel. -/
def archive_write_client_write (writer : Nat → Nat → Int) :
    Nat → Nat → Nat → Option Int
  | _, _, 0 => none
  | k, remaining, fuel + 1 =>
    if remaining = 0 then some ARCHIVE_OK
    else
      let written := writer k remaining
      if written < 0 then some (intCast32 written)
      else if written = 0 then some ARCHIVE_FATAL
      else archive_write_client_write writer (k + 1)
        (((remaining : Int) - written) % (2 ^ 64 : Int)).toNat fuel

/-- The shape of an option-handler hook (`format_options` on the handle,
`options` on a filter): a key and an optional value (`NULL` is passed when
the parsed value is empty) to a status. -/
abbrev OptionHandler := String → Option String → Int

/-- The token loop of `archive_write_set_format_options`: for each parsed
key/value pair run the handler; `ARCHIVE_FATAL` is returned at once; any
other status below `ARCHIVE_OK` downgrades the accumulated result to
`ARCHIVE_WARN` ("unsupported option") and processing continues.  When the
tokens are exhausted, a trailing malformed token (the C `len < 0` case)
makes the call return `ARCHIVE_WARN`. -/
def formatOptionsLoop (handler : OptionHandler) (malformed : Bool) :
    List (String × Option String) → Int → Int
  | [], ret => if malformed then ARCHIVE_WARN else ret
  | (k, v) :: ts, ret =>
    let r := handler k v
    if r = ARCHIVE_FATAL then r
    else if r < ARCHIVE_OK then formatOptionsLoop handler malformed ts ARCHIVE_WARN
    else formatOptionsLoop handler malformed ts ret

/-- `archive_write_set_format_options`: an empty options string, or a
format without an options handler, succeeds trivially; otherwise the token
loop runs.  The options string is modelled by its parsed key/value tokens
plus a flag saying whether a malformed token follows them. -/
def archive_write_set_format_options (fmtOpts : Option OptionHandler)
    (tokens : List (String × Option String)) (malformed isEmpty : Bool) : Int :=
  if isEmpty then ARCHIVE_OK
  else
    match fmtOpts with
    | none => ARCHIVE_OK
    | some handler => formatOptionsLoop handler malformed tokens ARCHIVE_OK

/-- The inner token loop of `archive_write_set_compressor_options` for one
filter that has an options handler; the boolean of the result records
whether the loop returned early with `ARCHIVE_FATAL`. -/
def filterOptionsLoop (handler : OptionHandler) :
    List (String × Option String) → Int → Int × Bool
  | [], ret => (ret, false)
  | (k, v) :: ts, ret =>
    let r := handler k v
    if r = ARCHIVE_FATAL then (r, true)
    else if r < ARCHIVE_OK then filterOptionsLoop handler ts ARCHIVE_WARN
    else filterOptionsLoop handler ts ret

/-- The filter loop of `archive_write_set_compressor_options`: filters
without an options handler are skipped; a filter with a handler consumes
the remaining tokens (the parse position `s` advances and is shared across
filters, so later filters see no tokens).  `len` models the result of the
last parser call: after a handler ran, it is negative exactly when the
string ends with a malformed token, and the final `len < 0` check turns
that into `ARCHIVE_WARN`. -/
def compressorFiltersLoop (malformed : Bool) :
    List (Option OptionHandler) → List (String × Option String) → Int → Int → Int
  | [], _, ret, len => if len < 0 then ARCHIVE_WARN else ret
  | none :: fs, ts, ret, len => compressorFiltersLoop malformed fs ts ret len
  | some h :: fs, ts, ret, _ =>
    match filterOptionsLoop h ts ret with
    | (r, true) => r
    | (r, false) =>
      compressorFiltersLoop malformed fs [] r (if malformed then -1 else 0)

/-- `archive_write_set_compressor_options`: an empty options string
succeeds trivially; otherwise the filter loop runs over the chain with the
parsed tokens. -/
def archive_write_set_compressor_options (filters : List (Option OptionHandler))
    (tokens : List (String × Option String)) (malformed isEmpty : Bool) : Int :=
  if isEmpty then ARCHIVE_OK
  else compressorFiltersLoop malformed filters tokens ARCHIVE_OK 0

/-- `archive_write_set_options`: run the format option pass; a result
below `ARCHIVE_WARN` is returned at once; then the compressor option pass,
likewise; then `ARCHIVE_WARN` when both passes warned, else `ARCHIVE_OK`. -/
def archive_write_set_options (fmtOpts : Option OptionHandler)
    (filters : List (Option OptionHandler))
    (tokens : List (String × Option String)) (malformed isEmpty : Bool) : Int :=
  let r1 := archive_write_set_format_options fmtOpts tokens malformed isEmpty
  if r1 < ARCHIVE_WARN then r1
  else
    let r2 := archive_write_set_compressor_options filters tokens malformed isEmpty
    if r2 < ARCHIVE_WARN then r2
    else if r1 = ARCHIVE_WARN ∧ r2 = ARCHIVE_WARN then ARCHIVE_WARN
    else ARCHIVE_OK

/-- Claim C8: writing `length` bytes through the filter-chain write
operation increments the node's `bytes_written` by exactly the requested
length, and hands back the node's write-hook status unchanged, whatever
status (success, partial, error) the hook reported. -/
theorem C8_filter_write_counts_offered (f : Filter) (length : Nat) :
    ((__archive_write_filter f length).1).bytes_written
        = f.bytes_written + (length : Int)
      ∧ (__archive_write_filter f length).2 = f.write_ret :=
  ⟨rfl, rfl⟩

/-- Claim C9: `finish_entry` in state HEADER returns `ARCHIVE_OK` without
invoking the backend's finish-entry hook; in state DATA it invokes the
hook and returns its status; in both cases the state is HEADER on
return. -/
theorem C9_finish_entry_states (b : Backend) (a : Handle)
    (h : a.state = ARCHIVE_STATE_HEADER ∨ a.state = ARCHIVE_STATE_DATA) :
    (a.state = ARCHIVE_STATE_HEADER →
        (_archive_write_finish_entry b a).ret = ARCHIVE_OK
          ∧ (_archive_write_finish_entry b a).calls = [])
      ∧ (a.state = ARCHIVE_STATE_DATA →
        (_archive_write_finish_entry b a).calls = ["format_finish_entry"]
          ∧ (_archive_write_finish_entry b a).ret = b.finish_entry_ret)
      ∧ (_archive_write_finish_entry b a).a.state = ARCHIVE_STATE_HEADER := by
  have h24 : (2 : Nat) &&& 4 = 0 := by decide
  have h44 : (4 : Nat) &&& 4 = 4 := by decide
  rcases h with h | h <;>
    simp [_archive_write_finish_entry, h, ARCHIVE_STATE_HEADER,
      ARCHIVE_STATE_DATA, h24, h44]

/-- Witness for C9 at a concrete DATA-state handle with a backend whose
finish-entry hook reports `ARCHIVE_WARN`. -/
theorem C9_finish_entry_states_witness :
    (_archive_write_finish_entry { finish_entry_ret := ARCHIVE_WARN }
        { state := ARCHIVE_STATE_DATA }).calls = ["format_finish_entry"]
      ∧ (_archive_write_finish_entry { finish_entry_ret := ARCHIVE_WARN }
        { state := ARCHIVE_STATE_DATA }).a.state = ARCHIVE_STATE_HEADER := by
  have h := C9_finish_entry_states { finish_entry_ret := ARCHIVE_WARN }
    { state := ARCHIVE_STATE_DATA } (Or.inr rfl)
  exact ⟨(h.2.1 rfl).1, h.2.2⟩

/-- Claim C5: `close` on a NEW or CLOSED handle returns `ARCHIVE_OK` at
once, leaves the handle unchanged and invokes no backend or filter hook;
on a FATAL handle it returns `ARCHIVE_FATAL` at once, likewise without
side effects or hook invocations. -/
theorem C5_close_tolerant (b : Backend) (hasClose : Bool) (closeRet : Int)
    (a : Handle) :
    ((a.state = ARCHIVE_STATE_NEW ∨ a.state = ARCHIVE_STATE_CLOSED) →
        _archive_write_close b hasClose closeRet a
          = { a := a, ret := ARCHIVE_OK, calls := [] })
      ∧ (a.state = ARCHIVE_STATE_FATAL →
        _archive_write_close b hasClose closeRet a
          = { a := a, ret := ARCHIVE_FATAL, calls := [] }) := by
  have hn : (1 : Nat) &&& 32768 = 0 := by decide
  have hc : (32 : Nat) &&& 32768 = 0 := by decide
  have hn2 : (1 : Nat) &&& (1 ||| 32) = 1 := by decide
  have hc2 : (32 : Nat) &&& (1 ||| 32) = 32 := by decide
  have hf : (32768 : Nat) &&& 32768 = 32768 := by decide
  constructor
  · rintro (h | h) <;>
      simp [_archive_write_close, h, ARCHIVE_STATE_NEW, ARCHIVE_STATE_CLOSED,
        ARCHIVE_STATE_FATAL, hn, hc, hn2, hc2]
  · intro h
    simp [_archive_write_close, h, ARCHIVE_STATE_FATAL, hf]

/-- Witness for C5: a never-opened handle closes with `ARCHIVE_OK` and no
hook calls, and a FATAL handle closes with `ARCHIVE_FATAL` and no hook
calls, at concrete inputs. -/
theorem C5_close_tolerant_witness :
    _archive_write_close { } true ARCHIVE_WARN { state := ARCHIVE_STATE_NEW }
        = { a := { state := ARCHIVE_STATE_NEW }, ret := ARCHIVE_OK, calls := [] }
      ∧ _archive_write_close { } true ARCHIVE_WARN { state := ARCHIVE_STATE_FATAL }
        = { a := { state := ARCHIVE_STATE_FATAL }, ret := ARCHIVE_FATAL,
            calls := [] } :=
  ⟨(C5_close_tolerant { } true ARCHIVE_WARN { state := ARCHIVE_STATE_NEW }).1
      (Or.inl rfl),
    (C5_close_tolerant { } true ARCHIVE_WARN
      { state := ARCHIVE_STATE_FATAL }).2 rfl⟩

/-- Claim C10: whatever the head filter's open hook and the backend's init
hook report, after `archive_write_open` the state is HEADER, and the
backend's init hook is invoked exactly when the backend has one bound and
the head filter's open returned `ARCHIVE_OK`. -/
theorem C10_open_always_header (b : Backend) (n c : Int) (a : Handle)
    (h : a.state = ARCHIVE_STATE_NEW) :
    (archive_write_open b n c a).a.state = ARCHIVE_STATE_HEADER
      ∧ ("format_init" ∈ (archive_write_open b n c a).calls
        ↔ b.has_init = true ∧ headOpenResult n c a = ARCHIVE_OK) := by
  unfold archive_write_open
  by_cases hi : b.has_init = true ∧ headOpenResult n c a = ARCHIVE_OK <;>
    simp [hi]

/-- Witness for C10 at a handle with one configured filter whose open hook
fails with `ARCHIVE_FATAL`: the state still becomes HEADER and the init
hook of the backend is not invoked. -/
theorem C10_open_always_header_witness :
    (archive_write_open { has_init := true } ARCHIVE_OK ARCHIVE_OK
        { filters := [{ has_open := true, open_ret := ARCHIVE_FATAL }] }).a.state
        = ARCHIVE_STATE_HEADER
      ∧ ("format_init" ∈ (archive_write_open { has_init := true } ARCHIVE_OK
          ARCHIVE_OK
          { filters := [{ has_open := true, open_ret := ARCHIVE_FATAL }] }).calls
        ↔ ({ has_init := true } : Backend).has_init = true
            ∧ headOpenResult ARCHIVE_OK ARCHIVE_OK
              { filters := [{ has_open := true, open_ret := ARCHIVE_FATAL }] }
              = ARCHIVE_OK) :=
  C10_open_always_header { has_init := true } ARCHIVE_OK ARCHIVE_OK
    { filters := [{ has_open := true, open_ret := ARCHIVE_FATAL }] } rfl

/-- Counterexample to claim C3 as stated: opening a handle with zero
explicitly-configured filters yields a chain of 2 nodes (the appended
pass-through filter plus the client sink adapter), not 1. -/
theorem C3_chain_length_counterexample :
    ((archive_write_open { } ARCHIVE_OK ARCHIVE_OK { }).a.filters).length = 2
      ∧ ¬ ((archive_write_open { } ARCHIVE_OK ARCHIVE_OK { }).a.filters).length
          = 1 := by
  constructor <;> decide

/-- Claim C3 as amended: after open, a handle with zero
explicitly-configured filters has a chain of exactly 2 nodes (the
pass-through filter and the client sink adapter); a handle with N ≥ 1
configured filters has exactly N+1 nodes; in both cases the client sink
adapter is the terminal node. -/
theorem C3_chain_length (b : Backend) (n c : Int) (a : Handle)
    (h : a.state = ARCHIVE_STATE_NEW) :
    (a.filters = [] →
        ((archive_write_open b n c a).a.filters).length = 2)
      ∧ (a.filters ≠ [] →
        ((archive_write_open b n c a).a.filters).length = a.filters.length + 1)
      ∧ ∃ f, ((archive_write_open b n c a).a.filters).getLast? = some f
          ∧ f.isClientSink = true := by
  have hfil : (archive_write_open b n c a).a.filters
      = (openBuildChain n c a).filters := by
    simp only [archive_write_open]
    split <;> rfl
  refine ⟨?_, ?_, ?_⟩
  · intro he
    simp [hfil, openBuildChain, he, archive_write_set_compression_none]
  · intro he
    simp [hfil, openBuildChain, he]
  · have hlast : ((archive_write_open b n c a).a.filters).getLast?
        = some (clientSinkFilter c) := by
      simp only [hfil, openBuildChain]
      split <;>
        simp [archive_write_set_compression_none, List.getLast?_append_cons]
    exact ⟨_, hlast, rfl⟩

/-- Witness for C3 at two concrete handles: a zero-filter handle opens to
a chain of 2 nodes, and a one-filter handle opens to a chain of 2 nodes
ending in the client sink adapter. -/
theorem C3_chain_length_witness :
    ((archive_write_open { } ARCHIVE_OK ARCHIVE_OK { }).a.filters).length = 2
      ∧ ((archive_write_open { } ARCHIVE_OK ARCHIVE_OK
          { filters := [{ }] }).a.filters).length
        = (({ filters := [{ }] } : Handle)).filters.length + 1 :=
  ⟨(C3_chain_length { } ARCHIVE_OK ARCHIVE_OK { } rfl).1 rfl,
    (C3_chain_length { } ARCHIVE_OK ARCHIVE_OK { filters := [{ }] } rfl).2.1
      (by decide)⟩

/-- The two possible outcomes of `_archive_write_finish_entry`, according
to whether the DATA bit of the state word is set. -/
lemma finish_entry_cases (b : Backend) (a : Handle) :
    _archive_write_finish_entry b a
        = { a := { a with state := ARCHIVE_STATE_HEADER },
            ret := b.finish_entry_ret, calls := ["format_finish_entry"] }
      ∨ _archive_write_finish_entry b a
        = { a := { a with state := ARCHIVE_STATE_HEADER },
            ret := ARCHIVE_OK, calls := [] } := by
  unfold _archive_write_finish_entry
  split
  · exact Or.inl rfl
  · exact Or.inr rfl

/-- Claim C6: when the implicit finish-entry at the start of
`write_header` yields `ARCHIVE_OK` or `ARCHIVE_WARN` and the skip-identity
guard does not fire, `write_header` returns the more severe (numerically
lower) of the implicit-finish status and the backend write-header status;
in particular finish `Warn` + backend `OK` gives `Warn`. -/
theorem C6_header_severity_aggregation (b : Backend) (a : Handle) (e : Entry)
    (hst : a.state = ARCHIVE_STATE_HEADER ∨ a.state = ARCHIVE_STATE_DATA)
    (hfe : (_archive_write_finish_entry b a).ret = ARCHIVE_OK
      ∨ (_archive_write_finish_entry b a).ret = ARCHIVE_WARN)
    (hskip : skipGuard a e = false) :
    (_archive_write_header b a e).ret
      = min (_archive_write_finish_entry b a).ret b.write_header_ret := by
  have hsg : ∀ s, skipGuard { a with state := s } e = skipGuard a e :=
    fun _ => rfl
  rcases finish_entry_cases b a with hq | hq
  · rw [hq] at hfe ⊢
    simp only [_archive_write_header, hq]
    simp only [hsg, hskip] at *
    rcases hfe with hfe | hfe <;>
      simp only [hfe, ARCHIVE_OK, ARCHIVE_WARN, ARCHIVE_FATAL, min_def] <;>
      norm_num <;>
      split_ifs <;>
      simp_all <;>
      omega
  · rw [hq] at hfe ⊢
    simp only [_archive_write_header, hq]
    simp only [hsg, hskip] at *
    simp only [ARCHIVE_OK, ARCHIVE_WARN, ARCHIVE_FATAL, min_def]
    norm_num
    split_ifs <;> simp_all <;> omega

/-- Witness for C6: state DATA, backend finish-entry hook reporting
`ARCHIVE_WARN` and write-header hook reporting `ARCHIVE_OK`, give a
combined `write_header` result of `ARCHIVE_WARN`. -/
theorem C6_header_severity_aggregation_witness :
    (_archive_write_header
        { write_header_ret := ARCHIVE_OK, finish_entry_ret := ARCHIVE_WARN }
        { state := ARCHIVE_STATE_DATA } { }).ret = ARCHIVE_WARN := by
  have h := C6_header_severity_aggregation
    { write_header_ret := ARCHIVE_OK, finish_entry_ret := ARCHIVE_WARN }
    { state := ARCHIVE_STATE_DATA } { } (Or.inr rfl) (Or.inr (by decide))
    (by decide)
  rw [h]
  decide

/-- Counterexample to claim C1 as stated: a skip identity configured as
(0, 5) has a nonzero inode component, and an entry with device 0 and
inode 5 matches it, yet `write_header` does not fail with
`ARCHIVE_FAILED` and the backend's write-header hook is invoked — the code
additionally requires the configured device to be nonzero. -/
theorem C1_skip_identity_counterexample :
    (_archive_write_header { }
        (archive_write_set_skip_file { state := ARCHIVE_STATE_HEADER } 0 5).1
        { dev := 0, ino64 := 5 }).ret ≠ ARCHIVE_FAILED
      ∧ "format_write_header" ∈ (_archive_write_header { }
        (archive_write_set_skip_file { state := ARCHIVE_STATE_HEADER } 0 5).1
        { dev := 0, ino64 := 5 }).calls := by
  constructor <;> decide

/-- Claim C1 as amended: when the configured skip identity (D, I) has both
D and I nonzero, an entry with device D and inode I is rejected by
`write_header` with `ARCHIVE_FAILED` without invoking the backend's
write-header hook (provided the preceding implicit finish-entry returned
`ARCHIVE_OK` or `ARCHIVE_WARN`), and an entry whose inode differs from I
is not rejected by this check: the backend's write-header hook is
invoked. -/
theorem C1_skip_identity_guard (b : Backend) (a : Handle) (e : Entry)
    (hst : a.state = ARCHIVE_STATE_HEADER ∨ a.state = ARCHIVE_STATE_DATA)
    (hfe : (_archive_write_finish_entry b a).ret = ARCHIVE_OK
      ∨ (_archive_write_finish_entry b a).ret = ARCHIVE_WARN) :
    (a.skip_file_dev ≠ 0 → a.skip_file_ino ≠ 0 → e.dev = a.skip_file_dev →
        e.ino64 = a.skip_file_ino →
        (_archive_write_header b a e).ret = ARCHIVE_FAILED
          ∧ "format_write_header" ∉ (_archive_write_header b a e).calls)
      ∧ (e.ino64 ≠ a.skip_file_ino →
        "format_write_header" ∈ (_archive_write_header b a e).calls) := by
  have hsg : ∀ s, skipGuard { a with state := s } e = skipGuard a e :=
    fun _ => rfl
  constructor
  · intro hd hi hed hei
    have hguard : skipGuard a e = true := by
      simp [skipGuard, hd, hi, hed, hei]
    rcases finish_entry_cases b a with hq | hq <;>
      rw [hq] at hfe <;>
      simp only [_archive_write_header, hq, hsg, hguard] <;>
      rcases hfe with hfe | hfe <;>
      simp_all [ARCHIVE_OK, ARCHIVE_WARN, ARCHIVE_FATAL, ARCHIVE_FAILED]
  · intro hne
    have hguard : skipGuard a e = false := by
      simp [skipGuard, hne]
    rcases finish_entry_cases b a with hq | hq <;>
      rw [hq] at hfe <;>
      simp only [_archive_write_header, hq, hsg, hguard] <;>
      rcases hfe with hfe | hfe <;>
      simp_all [ARCHIVE_OK, ARCHIVE_WARN, ARCHIVE_FATAL, ARCHIVE_FAILED] <;>
      split_ifs <;>
      simp_all

/-- Witness for C1: skip identity (7, 5), entry (7, 5) is rejected with
`ARCHIVE_FAILED` and no backend write-header call; entry (7, 6) reaches
the backend's write-header hook. -/
theorem C1_skip_identity_guard_witness :
    ((_archive_write_header { }
        (archive_write_set_skip_file { state := ARCHIVE_STATE_HEADER } 7 5).1
        { dev := 7, ino64 := 5 }).ret = ARCHIVE_FAILED
      ∧ "format_write_header" ∉ (_archive_write_header { }
        (archive_write_set_skip_file { state := ARCHIVE_STATE_HEADER } 7 5).1
        { dev := 7, ino64 := 5 }).calls)
      ∧ "format_write_header" ∈ (_archive_write_header { }
        (archive_write_set_skip_file { state := ARCHIVE_STATE_HEADER } 7 5).1
        { dev := 7, ino64 := 6 }).calls :=
  ⟨(C1_skip_identity_guard { }
      (archive_write_set_skip_file { state := ARCHIVE_STATE_HEADER } 7 5).1
      { dev := 7, ino64 := 5 } (Or.inl rfl) (Or.inl (by decide))).1
      (by decide) (by decide) rfl rfl,
    (C1_skip_identity_guard { }
      (archive_write_set_skip_file { state := ARCHIVE_STATE_HEADER } 7 5).1
      { dev := 7, ino64 := 6 } (Or.inl rfl) (Or.inl (by decide))).2
      (by decide)⟩

/-- Counterexample to claim C4 as stated: with skip identity (1, 1) and a
matching entry, `write_header` from state HEADER returns `ARCHIVE_FAILED`
— a non-fatal status — yet the handle's state is HEADER, not DATA, when it
returns. -/
theorem C4_header_state_counterexample :
    (_archive_write_header { }
        (archive_write_set_skip_file { state := ARCHIVE_STATE_HEADER } 1 1).1
        { dev := 1, ino64 := 1 }).ret = ARCHIVE_FAILED
      ∧ ¬ (_archive_write_header { }
        (archive_write_set_skip_file { state := ARCHIVE_STATE_HEADER } 1 1).1
        { dev := 1, ino64 := 1 }).a.state = ARCHIVE_STATE_DATA := by
  constructor <;> decide

/-- Claim C4 as amended: when `write_header` is called from a legal state
and returns a non-fatal status, the handle's state on return is DATA
exactly when the backend's write-header hook was invoked, and HEADER on
the early non-fatal returns (implicit finish-entry status worse than Warn,
or skip-identity rejection). -/
theorem C4_header_state (b : Backend) (a : Handle) (e : Entry)
    (hst : a.state = ARCHIVE_STATE_HEADER ∨ a.state = ARCHIVE_STATE_DATA)
    (hret : (_archive_write_header b a e).ret ≠ ARCHIVE_FATAL) :
    ((_archive_write_header b a e).a.state = ARCHIVE_STATE_DATA
        ↔ "format_write_header" ∈ (_archive_write_header b a e).calls)
      ∧ ((_archive_write_header b a e).a.state = ARCHIVE_STATE_DATA
        ∨ (_archive_write_header b a e).a.state = ARCHIVE_STATE_HEADER) := by
  rcases finish_entry_cases b a with hq | hq <;>
    simp only [_archive_write_header, hq] at hret ⊢ <;>
    split_ifs at hret ⊢ <;>
    simp_all [ARCHIVE_STATE_HEADER, ARCHIVE_STATE_DATA, ARCHIVE_STATE_FATAL]

/-- Witness for C4 at a concrete input: a default backend and an entry
that is not skip-rejected give a non-fatal return with state DATA and the
backend hook invoked. -/
theorem C4_header_state_witness :
    ((_archive_write_header { } { state := ARCHIVE_STATE_HEADER } { }).a.state
          = ARCHIVE_STATE_DATA
        ↔ "format_write_header"
          ∈ (_archive_write_header { } { state := ARCHIVE_STATE_HEADER } { }).calls)
      ∧ ((_archive_write_header { } { state := ARCHIVE_STATE_HEADER } { }).a.state
          = ARCHIVE_STATE_DATA
        ∨ (_archive_write_header { } { state := ARCHIVE_STATE_HEADER } { }).a.state
          = ARCHIVE_STATE_HEADER) :=
  C4_header_state { } { state := ARCHIVE_STATE_HEADER } { } (Or.inl rfl)
    (by decide)

/-- The token loop of the format-options pass only ever produces
`ARCHIVE_OK`, `ARCHIVE_WARN` or `ARCHIVE_FATAL`. -/
lemma formatOptionsLoop_range (h : OptionHandler) (m : Bool)
    (ts : List (String × Option String)) (ret : Int)
    (hret : ret = ARCHIVE_OK ∨ ret = ARCHIVE_WARN) :
    formatOptionsLoop h m ts ret = ARCHIVE_OK
      ∨ formatOptionsLoop h m ts ret = ARCHIVE_WARN
      ∨ formatOptionsLoop h m ts ret = ARCHIVE_FATAL := by
  induction ts generalizing ret with
  | nil =>
    rcases hret with hret | hret <;> rw [hret] <;>
      simp [formatOptionsLoop] <;> cases m <;> simp
  | cons t ts ih =>
    obtain ⟨k, v⟩ := t
    simp only [formatOptionsLoop]
    split_ifs with h1 h2
    · exact Or.inr (Or.inr h1)
    · exact ih _ (Or.inr rfl)
    · exact ih _ hret

/-- The per-filter token loop: an early return carries `ARCHIVE_FATAL`,
and a completed run carries `ARCHIVE_OK` or `ARCHIVE_WARN`. -/
lemma filterOptionsLoop_spec (h : OptionHandler)
    (ts : List (String × Option String)) (ret : Int)
    (hret : ret = ARCHIVE_OK ∨ ret = ARCHIVE_WARN) :
    ((filterOptionsLoop h ts ret).2 = true →
        (filterOptionsLoop h ts ret).1 = ARCHIVE_FATAL)
      ∧ ((filterOptionsLoop h ts ret).2 = false →
        (filterOptionsLoop h ts ret).1 = ARCHIVE_OK
          ∨ (filterOptionsLoop h ts ret).1 = ARCHIVE_WARN) := by
  induction ts generalizing ret with
  | nil => simpa [filterOptionsLoop] using hret
  | cons t ts ih =>
    obtain ⟨k, v⟩ := t
    simp only [filterOptionsLoop]
    split_ifs with h1 h2
    · simp [h1]
    · exact ih _ (Or.inr rfl)
    · exact ih _ hret

/-- The filter loop of the compressor-options pass only ever produces
`ARCHIVE_OK`, `ARCHIVE_WARN` or `ARCHIVE_FATAL`. -/
lemma compressorFiltersLoop_range (m : Bool)
    (fs : List (Option OptionHandler)) (ts : List (String × Option String))
    (ret len : Int) (hret : ret = ARCHIVE_OK ∨ ret = ARCHIVE_WARN) :
    compressorFiltersLoop m fs ts ret len = ARCHIVE_OK
      ∨ compressorFiltersLoop m fs ts ret len = ARCHIVE_WARN
      ∨ compressorFiltersLoop m fs ts ret len = ARCHIVE_FATAL := by
  induction fs generalizing ts ret len with
  | nil =>
    rcases hret with hret | hret <;> rw [hret] <;>
      simp only [compressorFiltersLoop] <;> split_ifs <;> simp
  | cons f fs ih =>
    cases f with
    | none => exact ih ts ret len hret
    | some h =>
      have hspec := filterOptionsLoop_spec h ts ret hret
      simp only [compressorFiltersLoop]
      rcases hp : filterOptionsLoop h ts ret with ⟨r, early⟩
      rw [hp] at hspec
      cases early
      · exact ih [] r _ (hspec.2 rfl)
      · exact Or.inr (Or.inr (hspec.1 rfl))

/-- The format-options pass only ever returns `ARCHIVE_OK`,
`ARCHIVE_WARN` or `ARCHIVE_FATAL`. -/
lemma set_format_options_range (fo : Option OptionHandler)
    (ts : List (String × Option String)) (m e : Bool) :
    archive_write_set_format_options fo ts m e = ARCHIVE_OK
      ∨ archive_write_set_format_options fo ts m e = ARCHIVE_WARN
      ∨ archive_write_set_format_options fo ts m e = ARCHIVE_FATAL := by
  unfold archive_write_set_format_options
  split_ifs
  · exact Or.inl rfl
  · cases fo with
    | none => exact Or.inl rfl
    | some h => exact formatOptionsLoop_range h m ts ARCHIVE_OK (Or.inl rfl)

/-- The compressor-options pass only ever returns `ARCHIVE_OK`,
`ARCHIVE_WARN` or `ARCHIVE_FATAL`. -/
lemma set_compressor_options_range (fs : List (Option OptionHandler))
    (ts : List (String × Option String)) (m e : Bool) :
    archive_write_set_compressor_options fs ts m e = ARCHIVE_OK
      ∨ archive_write_set_compressor_options fs ts m e = ARCHIVE_WARN
      ∨ archive_write_set_compressor_options fs ts m e = ARCHIVE_FATAL := by
  unfold archive_write_set_compressor_options
  split_ifs
  · exact Or.inl rfl
  · exact compressorFiltersLoop_range m fs ts ARCHIVE_OK 0 (Or.inl rfl)

/-- Counterexample to claim C2 as stated: a format handler that rejects
the sole key (format pass returns `ARCHIVE_WARN`) combined with a filter
handler that accepts it (compressor pass returns `ARCHIVE_OK`) makes the
combined operation return `ARCHIVE_OK`, not `ARCHIVE_WARN` — the code
reports `Warn` only when both passes warned, not when either did. -/
theorem C2_set_options_counterexample :
    archive_write_set_format_options (some fun _ _ => ARCHIVE_FAILED)
        [("k", none)] false false = ARCHIVE_WARN
      ∧ archive_write_set_compressor_options [some fun _ _ => ARCHIVE_OK]
        [("k", none)] false false = ARCHIVE_OK
      ∧ archive_write_set_options (some fun _ _ => ARCHIVE_FAILED)
        [some fun _ _ => ARCHIVE_OK] [("k", none)] false false
        = ARCHIVE_OK :=
  ⟨rfl, rfl, rfl⟩

/-- Claim C2 as amended: the combined operation returns `ARCHIVE_FATAL`
when either pass returns worse than `Warn` (which, given the passes'
ranges, means `ARCHIVE_FATAL`), returns `ARCHIVE_WARN` when both passes
returned `Warn`, and returns `ARCHIVE_OK` otherwise. -/
theorem C2_set_options_combination (fo : Option OptionHandler)
    (fs : List (Option OptionHandler)) (ts : List (String × Option String))
    (m e : Bool) :
    (archive_write_set_format_options fo ts m e = ARCHIVE_FATAL →
        archive_write_set_options fo fs ts m e = ARCHIVE_FATAL)
      ∧ (archive_write_set_format_options fo ts m e ≠ ARCHIVE_FATAL →
        archive_write_set_compressor_options fs ts m e = ARCHIVE_FATAL →
        archive_write_set_options fo fs ts m e = ARCHIVE_FATAL)
      ∧ (archive_write_set_format_options fo ts m e = ARCHIVE_WARN →
        archive_write_set_compressor_options fs ts m e = ARCHIVE_WARN →
        archive_write_set_options fo fs ts m e = ARCHIVE_WARN)
      ∧ (archive_write_set_format_options fo ts m e ≠ ARCHIVE_FATAL →
        archive_write_set_compressor_options fs ts m e ≠ ARCHIVE_FATAL →
        ¬ (archive_write_set_format_options fo ts m e = ARCHIVE_WARN
            ∧ archive_write_set_compressor_options fs ts m e = ARCHIVE_WARN) →
        archive_write_set_options fo fs ts m e = ARCHIVE_OK) := by
  have h1 := set_format_options_range fo ts m e
  have h2 := set_compressor_options_range fs ts m e
  simp only [archive_write_set_options]
  rcases h1 with h1 | h1 | h1 <;> rcases h2 with h2 | h2 | h2 <;>
    rw [h1, h2] <;> decide

/-- Witness for C2: with both the format and the sole filter handler
rejecting the key, both passes warn and the combined operation returns
`ARCHIVE_WARN`. -/
theorem C2_set_options_combination_witness :
    archive_write_set_options (some fun _ _ => ARCHIVE_FAILED)
        [some fun _ _ => ARCHIVE_FAILED] [("k", none)] false false
      = ARCHIVE_WARN :=
  (C2_set_options_combination (some fun _ _ => ARCHIVE_FAILED)
      [some fun _ _ => ARCHIVE_FAILED] [("k", none)] false false).2.2.1
    rfl rfl

/-- For a nonnegative integer, reduction modulo a positive integer does
not increase it. -/
lemma emod_le_self_of_nonneg {x m : Int} (hx : 0 ≤ x) (hm : 0 < m) :
    x % m ≤ x := by
  rcases lt_or_le x m with h | h
  · rw [Int.emod_eq_of_lt hx h]
  · exact le_trans (le_of_lt (Int.emod_lt_of_pos x hm)) h

/-- Claim C7: a writer reporting positive counts bounded by the remaining
length is invoked repeatedly until all bytes are consumed, upon which the
adapter returns `ARCHIVE_OK`; a negative report is returned (as the C
`int` cast of the count) immediately; a zero report with bytes remaining
yields `ARCHIVE_FATAL`; and for any writer whose reports fit in `int`, the
only non-negative status the adapter ever returns is `ARCHIVE_OK` — it
never reports success for a partially flushed buffer. -/
theorem C7_client_write_loop (writer : Nat → Nat → Int) :
    ((∀ k r, 0 < r → 0 < writer k r ∧ writer k r ≤ (r : Int)) →
        ∀ fuel k rem, rem < fuel →
          archive_write_client_write writer k rem fuel = some ARCHIVE_OK)
      ∧ (∀ k rem fuel, 0 < rem → writer k rem < 0 →
          -(2 ^ 31) ≤ writer k rem →
          archive_write_client_write writer k rem (fuel + 1)
            = some (writer k rem))
      ∧ (∀ k rem fuel, 0 < rem → writer k rem = 0 →
          archive_write_client_write writer k rem (fuel + 1)
            = some ARCHIVE_FATAL)
      ∧ ((∀ k r, -(2 ^ 31) ≤ writer k r) →
          ∀ fuel k rem r, archive_write_client_write writer k rem fuel = some r →
          ARCHIVE_OK ≤ r → r = ARCHIVE_OK) := by
  refine ⟨?_, ?_, ?_, ?_⟩
  · intro hw fuel
    induction fuel with
    | zero => intro k rem h; omega
    | succ fuel ih =>
      intro k rem hlt
      by_cases h0 : rem = 0
      · simp [archive_write_client_write, h0]
      · have hwk := hw k rem (Nat.pos_of_ne_zero h0)
        have hneg : ¬ writer k rem < 0 := by omega
        have hzero : ¬ writer k rem = 0 := by omega
        simp only [archive_write_client_write, h0, if_false, hneg, hzero,
          ite_false]
        apply ih
        have hnn : (0 : Int) ≤ (rem : Int) - writer k rem := by
          have := hwk.2
          omega
        have hmod := emod_le_self_of_nonneg hnn
          (by norm_num : (0 : Int) < 2 ^ 64)
        have hnn2 : (0 : Int) ≤ ((rem : Int) - writer k rem) % 2 ^ 64 :=
          Int.emod_nonneg _ (by norm_num)
        have h1 := hwk.1
        omega
  · intro k rem fuel h0 hneg hbnd
    have h0' : ¬ rem = 0 := by omega
    have hc : intCast32 (writer k rem) = writer k rem := by
      unfold intCast32
      have : (writer k rem + 2 ^ 31) % 2 ^ 32 = writer k rem + 2 ^ 31 :=
        Int.emod_eq_of_lt (by omega) (by omega)
      omega
    simp only [archive_write_client_write, h0', if_false, hneg, if_true, hc]
  · intro k rem fuel h0 hzero
    have h0' : ¬ rem = 0 := by omega
    have hneg : ¬ writer k rem < 0 := by omega
    simp only [archive_write_client_write, h0', if_false, hneg, ite_false,
      hzero, if_true]
    norm_num
  · intro hbnd fuel
    induction fuel with
    | zero =>
      intro k rem r hr
      simp [archive_write_client_write] at hr
    | succ fuel ih =>
      intro k rem r hr hok
      by_cases h0 : rem = 0
      · simp [archive_write_client_write, h0] at hr
        omega
      · by_cases hneg : writer k rem < 0
        · have hb := hbnd k rem
          have hc : intCast32 (writer k rem) = writer k rem := by
            unfold intCast32
            have : (writer k rem + 2 ^ 31) % 2 ^ 32 = writer k rem + 2 ^ 31 :=
              Int.emod_eq_of_lt (by omega) (by omega)
            omega
          simp only [archive_write_client_write, h0, if_false, hneg, if_true,
            hc, Option.some.injEq] at hr
          rw [← hr] at hok
          unfold ARCHIVE_OK at hok
          omega
        · by_cases hzero : writer k rem = 0
          · simp only [archive_write_client_write, h0, if_false, hneg,
              ite_false, hzero, if_true, Option.some.injEq] at hr
            norm_num at hr
            subst hr
            simp [ARCHIVE_OK, ARCHIVE_FATAL] at hok
          · simp only [archive_write_client_write, h0, if_false, hneg,
              ite_false, hzero] at hr
            exact ih _ _ _ hr hok

/-- Witness for C7: a writer that always reports one byte drains a
two-byte buffer within fuel 3 and the adapter returns `ARCHIVE_OK`. -/
theorem C7_client_write_loop_witness :
    archive_write_client_write (fun _ _ => 1) 0 2 3 = some ARCHIVE_OK :=
  (C7_client_write_loop (fun _ _ => 1)).1
    (fun _ r hr => ⟨by norm_num, by exact_mod_cast hr⟩) 3 0 2 (by norm_num)

end ArchiveWrite
